import Mathlib

/-!
Verification of the Pylk selection / history / coordinate-mapping logic.

This file gives a shallow embedding, in Lean 4, of the state-manipulating
core of the Pylk GUI (file pylk/pylk/plk.py together with
pylk/models/pulsar.py, pylk/controllers/project.py and
pylk/main_window.py), and proves properties of that embedding.

Modelling conventions:
  - numpy float arrays are modelled as lists of rationals; numpy boolean
    masks as lists of booleans;
  - the external PINT provider (the psr object of pintk heritage) is
    modelled by an explicit structure holding exactly the fields the
    widget code reads, with genuinely external operations
    (delete_TOAs) taken as function parameters;
  - Python exceptions are modelled by explicit outcome values;
  - mutation of the widget is modelled by state-passing functions from
    the widget state to the widget state paired with an outcome.
-/

set_option autoImplicit false

namespace Pylk

/-! ### Generic list lemmas used throughout -/

theorem getD_of_le {α : Type} (l : List α) (i : ℕ) (d : α) (h : l.length ≤ i) :
    l.getD i d = d := by
  induction l generalizing i with
  | nil => simp [List.getD]
  | cons a as ih =>
    cases i with
    | zero => simp at h
    | succ j =>
      simp only [List.getD_cons_succ]
      exact ih j (by simpa using h)

theorem zipWith_getD {α β γ : Type} (f : α → β → γ) (as : List α) (bs : List β)
    (i : ℕ) (da : α) (db : β) (dc : γ) (ha : i < as.length) (hb : i < bs.length) :
    (List.zipWith f as bs).getD i dc = f (as.getD i da) (bs.getD i db) := by
  induction as generalizing bs i with
  | nil => simp at ha
  | cons a as ih =>
    cases bs with
    | nil => simp at hb
    | cons b bs =>
      cases i with
      | zero => simp
      | succ j =>
        simp only [List.zipWith_cons_cons, List.getD_cons_succ]
        exact ih bs j (by simpa using ha) (by simpa using hb)

theorem zipWith_length_of_eq {α β γ : Type} (f : α → β → γ) (as : List α) (bs : List β)
    (h : as.length = bs.length) : (List.zipWith f as bs).length = as.length := by
  simp [List.length_zipWith, h]

theorem set_getD_eq {α : Type} (l : List α) (i : ℕ) (a d : α) (h : i < l.length) :
    (l.set i a).getD i d = a := by
  induction l generalizing i with
  | nil => simp at h
  | cons x xs ih =>
    cases i with
    | zero => simp
    | succ j =>
      simp only [List.set_cons_succ, List.getD_cons_succ]
      exact ih j (by simpa using h)

theorem set_getD_ne {α : Type} (l : List α) (i j : ℕ) (a d : α) (hij : i ≠ j) :
    (l.set i a).getD j d = l.getD j d := by
  induction l generalizing i j with
  | nil => simp [List.set]
  | cons x xs ih =>
    cases i with
    | zero =>
      cases j with
      | zero => exact absurd rfl hij
      | succ k => simp
    | succ i' =>
      cases j with
      | zero => simp
      | succ k =>
        simp only [List.set_cons_succ, List.getD_cons_succ]
        exact ih i' k (fun h => hij (by rw [h]))

theorem set_getD_self {α : Type} (l : List α) (i : ℕ) (d : α) (h : i < l.length) :
    l.set i (l.getD i d) = l := by
  induction l generalizing i with
  | nil => simp at h
  | cons x xs ih =>
    cases i with
    | zero => simp
    | succ j =>
      simp only [List.getD_cons_succ, List.set_cons_succ, List.cons.injEq, true_and]
      exact ih j (by simpa using h)

theorem map_not_of_count_eq_zero (sel : List Bool) (h : sel.count true = 0) :
    sel.map (fun b => !b) = List.replicate sel.length true := by
  induction sel with
  | nil => simp
  | cons b bs ih =>
    cases b with
    | false =>
      simp only [List.map_cons, List.length_cons, List.replicate_succ, Bool.not_false,
        List.cons.injEq, true_and]
      exact ih (by simpa using h)
    | true => simp [List.count_cons] at h

/-! ### np.argmin

In plk.py the nearest point is found with np.argmin over the distance
array.  np.argmin returns the index of the first occurrence of the
minimum value; the recursion below computes exactly that index, and
argminIdx_lt_length / argminIdx_min prove that the result is an
in-range minimising index. -/

def argminIdx : List ℚ → Option ℕ
  | [] => none
  | v :: vs =>
    match argminIdx vs with
    | none => some 0
    | some j => if vs.getD j 0 < v then some (j + 1) else some 0

theorem argminIdx_cons (v : ℚ) (vs : List ℚ) :
    argminIdx (v :: vs) = match argminIdx vs with
      | none => some 0
      | some j => if vs.getD j 0 < v then some (j + 1) else some 0 := rfl

theorem argminIdx_eq_none_iff (l : List ℚ) : argminIdx l = none ↔ l = [] := by
  cases l with
  | nil => simp [argminIdx]
  | cons v vs =>
    rw [argminIdx_cons]
    cases hv : argminIdx vs with
    | none => simp
    | some j =>
      show (if vs.getD j 0 < v then some (j + 1) else some 0) = none ↔ v :: vs = []
      by_cases hlt : vs.getD j 0 < v
      · rw [if_pos hlt]
        simp
      · rw [if_neg hlt]
        simp

theorem argminIdx_lt_length (l : List ℚ) (i : ℕ) (h : argminIdx l = some i) :
    i < l.length := by
  induction l generalizing i with
  | nil => simp [argminIdx] at h
  | cons v vs ih =>
    cases hv : argminIdx vs with
    | none =>
      simp only [argminIdx_cons, hv] at h
      have hi : 0 = i := by injection h
      subst hi
      simp
    | some j =>
      simp only [argminIdx_cons, hv] at h
      by_cases hlt : vs.getD j 0 < v
      · rw [if_pos hlt] at h
        have hi : j + 1 = i := by injection h
        subst hi
        have := ih j hv
        simp only [List.length_cons]
        omega
      · rw [if_neg hlt] at h
        have hi : 0 = i := by injection h
        subst hi
        simp

theorem argminIdx_min (l : List ℚ) (i : ℕ) (h : argminIdx l = some i) :
    ∀ j, j < l.length → l.getD i 0 ≤ l.getD j 0 := by
  induction l generalizing i with
  | nil => simp [argminIdx] at h
  | cons v vs ih =>
    cases hv : argminIdx vs with
    | none =>
      have hnil : vs = [] := (argminIdx_eq_none_iff vs).mp hv
      simp only [argminIdx_cons, hv] at h
      have hi : 0 = i := by injection h
      subst hi
      subst hnil
      intro j hj
      have hj0 : j = 0 := by simpa using hj
      subst hj0
      exact le_refl _
    | some jv =>
      simp only [argminIdx_cons, hv] at h
      by_cases hlt : vs.getD jv 0 < v
      · rw [if_pos hlt] at h
        have hi : jv + 1 = i := by injection h
        subst hi
        intro j hj
        cases j with
        | zero =>
          rw [List.getD_cons_succ, List.getD_cons_zero]
          exact le_of_lt hlt
        | succ j' =>
          rw [List.getD_cons_succ, List.getD_cons_succ]
          exact ih jv hv j' (by simpa using hj)
      · rw [if_neg hlt] at h
        push_neg at hlt
        have hi : 0 = i := by injection h
        subst hi
        intro j hj
        cases j with
        | zero => exact le_refl _
        | succ j' =>
          rw [List.getD_cons_zero, List.getD_cons_succ]
          exact le_trans hlt (ih jv hv j' (by simpa using hj))

theorem argminIdx_isSome (l : List ℚ) (h : l ≠ []) : ∃ i, argminIdx l = some i := by
  cases hv : argminIdx l with
  | none => exact absurd ((argminIdx_eq_none_iff l).mp hv) h
  | some i => exact ⟨i, rfl⟩

/-! ### coordToPoint (plk.py lines 1511-1541) and clickDist (line 331)

Source:
    ax, ay = 1, 1
    if which=='x': ay = 0
    if which=='y': ax = 0
    ind = None
    if self.psr is not None and cx is not None and cy is not None:
        x = self.xvals.value
        y = self.yvals.value
        xmin, xmax, ymin, ymax = self.plkAxes.axis()
        dist = ax*((x - cx) / (xmax - xmin)) ** 2.0
               + ay*((y - cy) / (ymax - ymin)) ** 2.0
        ind = np.argmin(dist)
        if dist[ind] > clickDist:
            ind = None
    return ind

The psr-is-None and cx/cy-None guards are outside the claims (they need
a loaded pulsar and a click inside the axes); the empty-array case, on
which np.argmin errors out, is modelled as the none result. -/

def clickDist : ℚ := 5 / 10000

inductive Which : Type
  | xy
  | x
  | y
deriving DecidableEq, Repr

def axWeights : Which → ℚ × ℚ
  | Which.xy => (1, 1)
  | Which.x => (1, 0)
  | Which.y => (0, 1)

def coordDistList (which : Which) (xvals yvals : List ℚ)
    (xmin xmax ymin ymax cx cy : ℚ) : List ℚ :=
  let ax : ℚ := (axWeights which).1
  let ay : ℚ := (axWeights which).2
  List.zipWith
    (fun xv yv => ax * ((xv - cx) / (xmax - xmin)) ^ 2 + ay * ((yv - cy) / (ymax - ymin)) ^ 2)
    xvals yvals

def coordToPoint (which : Which) (xvals yvals : List ℚ)
    (xmin xmax ymin ymax cx cy : ℚ) : Option ℕ :=
  match argminIdx (coordDistList which xvals yvals xmin xmax ymin ymax cx cy) with
  | none => none
  | some ind =>
    if (coordDistList which xvals yvals xmin xmax ymin ymax cx cy).getD ind 0 > clickDist
    then none
    else some ind

theorem coordToPoint_of_argmin_none (which : Which) (xs ys : List ℚ)
    (xmin xmax ymin ymax cx cy : ℚ)
    (h : argminIdx (coordDistList which xs ys xmin xmax ymin ymax cx cy) = none) :
    coordToPoint which xs ys xmin xmax ymin ymax cx cy = none := by
  unfold coordToPoint
  rw [h]

theorem coordToPoint_of_argmin_some (which : Which) (xs ys : List ℚ)
    (xmin xmax ymin ymax cx cy : ℚ) (ind : ℕ)
    (h : argminIdx (coordDistList which xs ys xmin xmax ymin ymax cx cy) = some ind) :
    coordToPoint which xs ys xmin xmax ymin ymax cx cy =
      if (coordDistList which xs ys xmin xmax ymin ymax cx cy).getD ind 0 > clickDist
      then none
      else some ind := by
  unfold coordToPoint
  rw [h]

/-! ### determine_yaxis_units (plk.py lines 1410-1422)

Source:
    diff = maxy - miny
    if diff > 0.2 * u.s:        convert both bounds to seconds
    elif diff > 0.2 * u.ms:     convert both bounds to milliseconds
    elif diff <= 0.2 * u.ms:    convert both bounds to microseconds
    return miny, maxy

Quantities are modelled as rationals measured in seconds (astropy
comparisons between time quantities are unit-aware, so only the
physical value matters).  The result is the unit both bounds are
converted to; none models the fall-through case in which no branch
fires and the bounds keep their incoming unit. -/

inductive ResUnit : Type
  | s
  | ms
  | us
deriving DecidableEq, Repr

def determine_yaxis_units (miny maxy : ℚ) : Option ResUnit :=
  let diff := maxy - miny
  if diff > 1 / 5 then some ResUnit.s
  else if diff > 1 / 5000 then some ResUnit.ms
  else if diff ≤ 1 / 5000 then some ResUnit.us
  else none


/-! ### Claims C1 and C2 -/

/-- Squared normalized offset of the plotted point (xv, yv) from the click
(cx, cy), exactly the per-point term of the dist array of coordToPoint for
which equal to xy.  The normalized Euclidean distance of the claim is the
square root of this quantity. -/
def normDistSq (xmin xmax ymin ymax cx cy xv yv : ℚ) : ℚ :=
  ((xv - cx) / (xmax - xmin)) ^ 2 + ((yv - cy) / (ymax - ymin)) ^ 2

theorem coordDistList_xy_getD (xs ys : List ℚ) (xmin xmax ymin ymax cx cy : ℚ)
    (i : ℕ) (hx : i < xs.length) (hy : i < ys.length) :
    (coordDistList Which.xy xs ys xmin xmax ymin ymax cx cy).getD i 0 =
      normDistSq xmin xmax ymin ymax cx cy (xs.getD i 0) (ys.getD i 0) := by
  unfold coordDistList
  rw [zipWith_getD _ xs ys i 0 0 0 hx hy]
  simp [axWeights, normDistSq]

theorem coordDistList_xy_length (xs ys : List ℚ) (xmin xmax ymin ymax cx cy : ℚ)
    (h : ys.length = xs.length) :
    (coordDistList Which.xy xs ys xmin xmax ymin ymax cx cy).length = xs.length := by
  simp [coordDistList, List.length_zipWith, h]

/-- C1 (counterexample).  The claim states that coordToPoint returns no
index whenever the nearest point lies at a normalized Euclidean distance
greater than the threshold 0.0005.  Here a single point is plotted at
(0, 0) with axis bounds 0..1 on both axes, and the click is at
(1/100, 0); the normalized offsets are (1/100, 0), so the normalized
Euclidean distance of the nearest (only) point is exactly 1/100, which
is far above 0.0005 (clickDist) -- yet coordToPoint returns the index 0,
because the source compares the SQUARED normalized distance
(dist = 1/10000 less or equal 0.0005) against the threshold. -/
theorem coordToPoint_threshold_cex :
    coordToPoint Which.xy [0] [0] 0 1 0 1 (1 / 100) 0 = some 0 ∧
    coordDistList Which.xy [0] [0] 0 1 0 1 (1 / 100) 0 = [(1 / 100 : ℚ) ^ 2] ∧
    clickDist < 1 / 100 := by
  refine ⟨?_, ?_, by norm_num [clickDist]⟩
  · norm_num [coordToPoint, coordDistList, axWeights, argminIdx, clickDist]
  · norm_num [coordDistList, axWeights]

/-- C1 (amended).  For a stationary click inside the axes over a nonempty
plotted point set, coordToPoint returns an index of a point minimising
the squared normalized distance over the plotted x/y arrays, the result
is none exactly when every point has squared normalized distance above
the threshold clickDist = 0.0005, and a click exactly at the location of
a point that no other plotted point shares resolves to that point. -/
theorem coordToPoint_spec (xs ys : List ℚ) (xmin xmax ymin ymax cx cy : ℚ)
    (hlen : ys.length = xs.length) (hne : xs ≠ []) :
    (∀ i, coordToPoint Which.xy xs ys xmin xmax ymin ymax cx cy = some i →
        i < xs.length ∧
        normDistSq xmin xmax ymin ymax cx cy (xs.getD i 0) (ys.getD i 0) ≤ clickDist ∧
        ∀ j, j < xs.length →
          normDistSq xmin xmax ymin ymax cx cy (xs.getD i 0) (ys.getD i 0) ≤
            normDistSq xmin xmax ymin ymax cx cy (xs.getD j 0) (ys.getD j 0)) ∧
    ((coordToPoint Which.xy xs ys xmin xmax ymin ymax cx cy = none) ↔
        ∀ j, j < xs.length →
          clickDist < normDistSq xmin xmax ymin ymax cx cy (xs.getD j 0) (ys.getD j 0)) ∧
    (∀ k, k < xs.length → xs.getD k 0 = cx → ys.getD k 0 = cy →
        (∀ j, j < xs.length → j ≠ k → xs.getD j 0 ≠ cx ∨ ys.getD j 0 ≠ cy) →
        xmax ≠ xmin → ymax ≠ ymin →
        coordToPoint Which.xy xs ys xmin xmax ymin ymax cx cy = some k) := by
  have hDlen : (coordDistList Which.xy xs ys xmin xmax ymin ymax cx cy).length = xs.length :=
    coordDistList_xy_length xs ys xmin xmax ymin ymax cx cy hlen
  have hD : ∀ i, i < xs.length →
      (coordDistList Which.xy xs ys xmin xmax ymin ymax cx cy).getD i 0 =
        normDistSq xmin xmax ymin ymax cx cy (xs.getD i 0) (ys.getD i 0) := by
    intro i hi
    exact coordDistList_xy_getD xs ys xmin xmax ymin ymax cx cy i hi (hlen ▸ hi)
  have hDne : coordDistList Which.xy xs ys xmin xmax ymin ymax cx cy ≠ [] := by
    intro hD0
    apply hne
    rw [hD0] at hDlen
    exact List.eq_nil_of_length_eq_zero hDlen.symm
  refine ⟨?_, ?_, ?_⟩
  · -- a returned index is in range, within threshold and minimising
    intro i hsome
    cases ha : argminIdx (coordDistList Which.xy xs ys xmin xmax ymin ymax cx cy) with
    | none =>
      rw [coordToPoint_of_argmin_none Which.xy xs ys xmin xmax ymin ymax cx cy ha] at hsome
      exact absurd hsome (by simp)
    | some ind =>
      rw [coordToPoint_of_argmin_some Which.xy xs ys xmin xmax ymin ymax cx cy ind ha] at hsome
      by_cases hbig :
          (coordDistList Which.xy xs ys xmin xmax ymin ymax cx cy).getD ind 0 > clickDist
      · rw [if_pos hbig] at hsome
        exact absurd hsome (by simp)
      · rw [if_neg hbig] at hsome
        have hiind : ind = i := by injection hsome
        subst hiind
        have hlt : ind < xs.length := by
          have := argminIdx_lt_length _ ind ha
          rwa [hDlen] at this
        refine ⟨hlt, ?_, ?_⟩
        · rw [← hD ind hlt]
          exact not_lt.mp hbig
        · intro j hj
          rw [← hD ind hlt, ← hD j hj]
          exact argminIdx_min _ ind ha j (by rw [hDlen]; exact hj)
  · -- none exactly when every point is beyond the threshold
    constructor
    · intro hnone j hj
      cases ha : argminIdx (coordDistList Which.xy xs ys xmin xmax ymin ymax cx cy) with
      | none => exact absurd ((argminIdx_eq_none_iff _).mp ha) hDne
      | some ind =>
        rw [coordToPoint_of_argmin_some Which.xy xs ys xmin xmax ymin ymax cx cy ind ha]
          at hnone
        by_cases hbig :
            (coordDistList Which.xy xs ys xmin xmax ymin ymax cx cy).getD ind 0 > clickDist
        · rw [← hD j hj]
          calc clickDist
              < (coordDistList Which.xy xs ys xmin xmax ymin ymax cx cy).getD ind 0 := hbig
            _ ≤ (coordDistList Which.xy xs ys xmin xmax ymin ymax cx cy).getD j 0 :=
              argminIdx_min _ ind ha j (by rw [hDlen]; exact hj)
        · rw [if_neg hbig] at hnone
          exact absurd hnone (by simp)
    · intro hall
      obtain ⟨ind, ha⟩ := argminIdx_isSome _ hDne
      have hlt : ind < xs.length := by
        have := argminIdx_lt_length _ ind ha
        rwa [hDlen] at this
      have hbig :
          (coordDistList Which.xy xs ys xmin xmax ymin ymax cx cy).getD ind 0 > clickDist := by
        rw [hD ind hlt]
        exact hall ind hlt
      rw [coordToPoint_of_argmin_some Which.xy xs ys xmin xmax ymin ymax cx cy ind ha,
        if_pos hbig]
  · -- a click exactly at an unshared point location resolves to it
    intro k hk hxk hyk hothers hxspan hyspan
    have hdk : normDistSq xmin xmax ymin ymax cx cy (xs.getD k 0) (ys.getD k 0) = 0 := by
      rw [hxk, hyk]
      simp [normDistSq]
    have hdj : ∀ j, j < xs.length → j ≠ k →
        0 < normDistSq xmin xmax ymin ymax cx cy (xs.getD j 0) (ys.getD j 0) := by
      intro j hj hjk
      have hx2 : (0:ℚ) ≤ ((xs.getD j 0 - cx) / (xmax - xmin)) ^ 2 := sq_nonneg _
      have hy2 : (0:ℚ) ≤ ((ys.getD j 0 - cy) / (ymax - ymin)) ^ 2 := sq_nonneg _
      cases hothers j hj hjk with
      | inl hne0 =>
        have hnum : xs.getD j 0 - cx ≠ 0 := sub_ne_zero.mpr hne0
        have hden : xmax - xmin ≠ 0 := sub_ne_zero.mpr hxspan
        have hq : ((xs.getD j 0 - cx) / (xmax - xmin)) ≠ 0 := div_ne_zero hnum hden
        have hpos : (0:ℚ) < ((xs.getD j 0 - cx) / (xmax - xmin)) ^ 2 :=
          lt_of_le_of_ne (sq_nonneg _) (Ne.symm (pow_ne_zero 2 hq))
        unfold normDistSq
        linarith
      | inr hne0 =>
        have hnum : ys.getD j 0 - cy ≠ 0 := sub_ne_zero.mpr hne0
        have hden : ymax - ymin ≠ 0 := sub_ne_zero.mpr hyspan
        have hq : ((ys.getD j 0 - cy) / (ymax - ymin)) ≠ 0 := div_ne_zero hnum hden
        have hpos : (0:ℚ) < ((ys.getD j 0 - cy) / (ymax - ymin)) ^ 2 :=
          lt_of_le_of_ne (sq_nonneg _) (Ne.symm (pow_ne_zero 2 hq))
        unfold normDistSq
        linarith
    obtain ⟨ind, ha⟩ := argminIdx_isSome _ hDne
    have hlt : ind < xs.length := by
      have := argminIdx_lt_length _ ind ha
      rwa [hDlen] at this
    have hindk : ind = k := by
      by_contra hne'
      have h1 := argminIdx_min _ ind ha k (by rw [hDlen]; exact hk)
      rw [hD ind hlt, hD k hk, hdk] at h1
      exact absurd (lt_of_lt_of_le (hdj ind hlt hne') h1) (lt_irrefl 0)
    subst hindk
    have hsmall :
        ¬ (coordDistList Which.xy xs ys xmin xmax ymin ymax cx cy).getD ind 0 > clickDist := by
      rw [hD ind hlt, hdk]
      norm_num [clickDist]
    rw [coordToPoint_of_argmin_some Which.xy xs ys xmin xmax ymin ymax cx cy ind ha,
      if_neg hsmall]

/-- C1 (witness).  On the two-point set (0,0), (1,1) with axis bounds
0..1, a click exactly at (1,1) resolves to index 1. -/
theorem coordToPoint_spec_witness :
    coordToPoint Which.xy [0, 1] [0, 1] 0 1 0 1 1 1 = some 1 := by
  have h := coordToPoint_spec [0, 1] [0, 1] 0 1 0 1 1 1 (by norm_num) (by simp)
  refine h.2.2 1 (by norm_num) (by norm_num) (by norm_num) ?_ (by norm_num) (by norm_num)
  intro j hj hjk
  have hj0 : j = 0 := by
    simp at hj
    omega
  subst hj0
  left
  norm_num

/-- C2.  The residual-axis unit selection of determine_yaxis_units
(values measured in seconds): a spread above 0.2 s selects seconds, a
spread above 0.2 ms but at most 0.2 s selects milliseconds, and a spread
of at most 0.2 ms selects microseconds; the behavior at each side of
both 0.2-unit boundaries follows by instantiation. -/
theorem determine_yaxis_units_spec (miny maxy : ℚ) :
    (1 / 5 < maxy - miny → determine_yaxis_units miny maxy = some ResUnit.s) ∧
    (1 / 5000 < maxy - miny → maxy - miny ≤ 1 / 5 →
      determine_yaxis_units miny maxy = some ResUnit.ms) ∧
    (maxy - miny ≤ 1 / 5000 → determine_yaxis_units miny maxy = some ResUnit.us) := by
  unfold determine_yaxis_units
  refine ⟨fun h => ?_, fun h1 h2 => ?_, fun h => ?_⟩
  · rw [if_pos (show maxy - miny > 1 / 5 from h)]
  · rw [if_neg (show ¬ maxy - miny > 1 / 5 from not_lt.mpr h2),
      if_pos (show maxy - miny > 1 / 5000 from h1)]
  · have h5 : ¬ maxy - miny > 1 / 5 := by
      rw [not_lt]
      linarith
    have h5000 : ¬ maxy - miny > 1 / 5000 := not_lt.mpr h
    rw [if_neg h5, if_neg h5000, if_pos h]

/-- C2 (witness).  Spreads of 5 s, 5 ms, 0.05 ms and the exact boundary
spreads 0.2 s and 0.2 ms, instantiated from determine_yaxis_units_spec. -/
theorem determine_yaxis_units_spec_witness :
    determine_yaxis_units 0 5 = some ResUnit.s ∧
    determine_yaxis_units 0 (5 / 1000) = some ResUnit.ms ∧
    determine_yaxis_units 0 (5 / 100000) = some ResUnit.us ∧
    determine_yaxis_units 0 (1 / 5) = some ResUnit.ms ∧
    determine_yaxis_units 0 (1 / 5000) = some ResUnit.us :=
  ⟨(determine_yaxis_units_spec 0 5).1 (by norm_num),
   (determine_yaxis_units_spec 0 (5 / 1000)).2.1 (by norm_num) (by norm_num),
   (determine_yaxis_units_spec 0 (5 / 100000)).2.2 (by norm_num),
   (determine_yaxis_units_spec 0 (1 / 5)).2.1 (by norm_num) (by norm_num),
   (determine_yaxis_units_spec 0 (1 / 5000)).2.2 (by norm_num)⟩

/-! ### The provider object (the pintk-style psr) as read by the widget -/

/-- One timing-model parameter of the prefit model: name, frozen flag and
value.  The source keeps the parameters as attributes of the model
object, listed by name in prefit_model.params; the widget reads only
the name, the frozen flag and, through deep copies, the values. -/
structure Param where
  name : String
  frozen : Bool
  value : ℚ
deriving DecidableEq, Repr

/-- The prefit timing model as read by the widget: parameter list and
component names (the widget tests membership of PhaseJump). -/
structure PrefitModel where
  params : List Param
  components : List String
deriving DecidableEq, Repr

/-- The TOA table as read by the widget: one entry per TOA giving the
optional jump flag (column flags, key jump). -/
structure TOATable where
  flagsJump : List (Option String)
deriving DecidableEq, Repr

def TOATable.ntoas (t : TOATable) : ℕ := t.flagsJump.length

/-- The pintk pulsar object (external to this repository) restricted to
the fields the verified widget code reads and writes: the prefit model,
the fitted flag, the deleted TOA indices and the TOA table. -/
structure Psr where
  prefit_model : PrefitModel
  fitted : Bool
  deleted : List ℕ
  all_toas : TOATable
deriving DecidableEq, Repr

/-- String prefix test param.startswith of Python, written over the
character list of the string so that it evaluates by kernel
reduction. -/
def strStartsWith (s pre : String) : Bool := List.isPrefixOf pre.data s.data

/-- String slice jump_name[4:] of Python: drop the first n characters. -/
def strDrop (s : String) (n : ℕ) : String := String.mk (s.data.drop n)

/-- PlkWidget.updateJumped (plk.py lines 1556-1574), in the string-name
case used by updateAllJumped: for the parameter JUMPnum, num being the
name with the first four characters dropped, every TOA whose jump flag
equals num has its jumped entry inverted
(self.jumped[jump_select] = ~self.jumped[jump_select]). -/
def updateJumped (psr : Psr) (jumped : List Bool) (jump_name : String) : List Bool :=
  List.zipWith (fun j f => if f = some (strDrop jump_name 4) then !j else j)
    jumped psr.all_toas.flagsJump

/-- PlkWidget.updateAllJumped (plk.py lines 1576-1584): reset jumped to
all-false of length ntoas, then fold updateJumped over every unfrozen
parameter whose name starts with JUMP. -/
def updateAllJumped (psr : Psr) : List Bool :=
  psr.prefit_model.params.foldl
    (fun jumped p =>
      if strStartsWith p.name "JUMP" && !p.frozen then updateJumped psr jumped p.name
      else jumped)
    (List.replicate psr.all_toas.ntoas false)

/-! ### Effective selection of the reporting and validation operations -/

/-- Effective mask of print_info (plk.py line 1429):
selected if np.sum(selected) else ~selected. -/
def print_info_selected (selected : List Bool) : List Bool :=
  if 0 < selected.count true then selected else selected.map (fun b => !b)

/-- Effective mask of print_chi2 (plk.py line 1459), the same expression
as in print_info. -/
def print_chi2_selected (selected : List Bool) : List Bool :=
  if 0 < selected.count true then selected else selected.map (fun b => !b)

/-- Effective mask of check_jump_invalid (plk.py line 1548):
~selected if selected.sum() == 0 else selected. -/
def check_jump_sel (selected : List Bool) : List Bool :=
  if selected.count true = 0 then selected.map (fun b => !b) else selected

/-- Boolean-mask indexing a[m] of numpy: the entries of a at the
positions where m holds true. -/
def boolIndex {α : Type} (a : List α) (m : List Bool) : List α :=
  ((a.zip m).filter (fun p => p.2)).map (fun p => p.1)

/-- PlkWidget.check_jump_invalid (plk.py lines 1543-1554).  The first
component is the Python return value: some false for the early return
when the model has no PhaseJump component, some true for the all-jumped
warning, none for the implicit fall-through.  The second component is
the jumped mask after the call (the method mutates self.jumped through
updateAllJumped before testing, except on the early return). -/
def check_jump_invalid (psr : Psr) (selected jumped : List Bool) :
    Option Bool × List Bool :=
  if "PhaseJump" ∉ psr.prefit_model.components then (some false, jumped)
  else
    let j := updateAllJumped psr
    let sel := check_jump_sel selected
    if (boolIndex j sel).all (fun b => b) then (some true, j) else (none, j)

/-- Truthiness of a Python value that is either None or a bool, as used
by the guard if self.check_jump_invalid(). -/
def pyTruthy : Option Bool → Bool
  | none => false
  | some b => b

/-! ### Click handling on the canvas -/

/-- Left-click toggle of stationaryClick (plk.py line 1681):
selected[ind] = not selected[ind]. -/
def toggleSelected (selected : List Bool) (ind : ℕ) : List Bool :=
  selected.set ind (!(selected.getD ind false))

/-- Lower edge of the drag rectangle (plk.py lines 1699-1704: the two
coordinates are swapped when the press value exceeds the release
value). -/
def rectLo (a b : ℚ) : ℚ := if a > b then b else a

/-- Upper edge of the drag rectangle. -/
def rectHi (a b : ℚ) : ℚ := if a > b then a else b

/-- PlkWidget.clickAndDrag (plk.py lines 1691-1716): points strictly
inside the rectangle spanned by the press and release coordinates are
OR-ed into the selection mask
(selected = (x gt xmin) and (x lt xmax) and (y gt ymin) and (y lt ymax);
self.selected |= selected). -/
def clickAndDrag (selected : List Bool) (xvals yvals : List ℚ)
    (px ex py ey : ℚ) : List Bool :=
  let xlo := rectLo px ex
  let xhi := rectHi px ex
  let ylo := rectLo py ey
  let yhi := rectHi py ey
  let inRect := List.zipWith
    (fun xv yv => decide (xv > xlo) && decide (xv < xhi) &&
      decide (yv > ylo) && decide (yv < yhi))
    xvals yvals
  List.zipWith (fun a b => a || b) selected inRect

/-! ### Widget state, fit and revert -/

/-- A history snapshot: the State object of plk.py with the two fields
revert reads (psr and selected), as pushed by fit. -/
structure Snap where
  psr : Psr
  selected : List Bool
deriving DecidableEq, Repr

/-- The mutable widget state read and written by fit and revert: the
provider object, the selection and jumped masks, the history stack (the
bottom of the stack is the first list element; Python append and pop
act on the end of the list), the base state recorded at setPulsar time
and the reusable current_state State object (none for a freshly
constructed State()). -/
structure PlkState where
  psr : Psr
  selected : List Bool
  jumped : List Bool
  state_stack : List Snap
  base_state : Snap
  current_state : Option Snap
deriving DecidableEq, Repr

/-- Python exceptions raised by the embedded code paths. -/
inductive PyExc : Type
  | nameError (nm : String)
  | notImplementedError
  | attributeError (attr : String)
deriving DecidableEq, Repr

/-- Outcome of one widget operation: normal completion, completion with
a logged warning, or an uncaught exception. -/
inductive StepOutcome : Type
  | ok
  | warned (msg : String)
  | raised (e : PyExc)
deriving DecidableEq, Repr

/-- PlkWidget.fit (plk.py lines 1099-1127).  The first statement of the
body is raise NotIplementedError() -- note the misspelling: the name
NotIplementedError is undefined, so evaluating the raise expression
raises NameError, and every later statement of fit is unreachable.  No
state is touched. -/
def fit (s : PlkState) : PlkState × StepOutcome :=
  (s, StepOutcome.raised (PyExc.nameError "NotIplementedError"))

/-- The snapshot push inside fit (plk.py lines 1110-1112):
current_state.psr = deepcopy(self.psr);
current_state.selected = self.selected;
state_stack.append(deepcopy(current_state)). -/
def fitPush (s : PlkState) : PlkState :=
  { s with
    current_state := some { psr := s.psr, selected := s.selected }
    state_stack := s.state_stack ++ [{ psr := s.psr, selected := s.selected }] }

/-- The statements of PlkWidget.fit after the unconditional raise (plk.py
lines 1104-1127), embedded separately because the raise makes them
unreachable: the all-jumped guard (which recomputes self.jumped) aborts
with return None after check_jump_invalid logged its warning; otherwise
the current state is pushed when the pulsar is already fitted and then
line 1113 evaluates self.fitterWidget.fitter -- but the fitterWidget
attribute is never created (line 833 is commented out), so execution
would stop with AttributeError before psr.fit is reached. -/
def fitBody (s : PlkState) : PlkState × StepOutcome :=
  let chk := check_jump_invalid s.psr s.selected s.jumped
  let s1 := { s with jumped := chk.2 }
  if pyTruthy chk.1 then
    (s1, StepOutcome.warned "TOAs being fit must not all be jumped")
  else
    let s2 := if s1.psr.fitted then fitPush s1 else s1
    (s2, StepOutcome.raised (PyExc.attributeError "fitterWidget"))

/-- PlkWidget.revert (plk.py lines 1196-1215).  When the stack is
nonempty and the pulsar is fitted, the top snapshot is popped, its psr
and selection are restored (with the provider operation delete_TOAs,
taken as a parameter, re-applied to the snapshot's own deleted list)
and the jumped mask is recomputed; the following statement
self.colorModeWidget.addColorModeCheckbox(self.color_modes) then raises
AttributeError, because colorModeWidget is never created (line 834 is
commented out), so the re-seeding of an emptied stack with the base
state (lines 1209-1211), update_resids and the redraw never execute.
Otherwise revert only logs a warning. -/
def revert (delete_TOAs : Psr → List ℕ → List Bool → Psr × List Bool)
    (s : PlkState) : PlkState × StepOutcome :=
  match s.state_stack.getLast?, s.psr.fitted with
  | some c, true =>
    ({ s with
        psr := (delete_TOAs c.psr c.psr.deleted c.selected).1
        selected := (delete_TOAs c.psr c.psr.deleted c.selected).2
        jumped := updateAllJumped (delete_TOAs c.psr c.psr.deleted c.selected).1
        state_stack := s.state_stack.dropLast },
      StepOutcome.raised (PyExc.attributeError "colorModeWidget"))
  | _, _ => (s, StepOutcome.warned "No model to revert to")

/-! ### The PulsarModel of the PINT-native variant (pylk/models/pulsar.py) -/

/-- State of PulsarModel: the five fields reset by clear.  The loaded
model, TOA and residual payloads are opaque to the verified code and
abstracted as natural numbers. -/
structure PulsarModelState where
  model : Option ℕ
  toas : Option ℕ
  residuals : Option ℕ
  par_path : Option String
  tim_path : Option String
deriving DecidableEq, Repr

/-- PulsarModel.is_loaded (pulsar.py lines 85-88). -/
def PulsarModelState.is_loaded (st : PulsarModelState) : Bool :=
  st.model.isSome && st.toas.isSome

/-- PulsarModel.clear (pulsar.py lines 165-171). -/
def PulsarModelState.clear (_st : PulsarModelState) : PulsarModelState :=
  { model := none, toas := none, residuals := none, par_path := none, tim_path := none }

/-- State of a freshly constructed PulsarModel (pulsar.py lines 52-58). -/
def emptyPulsarModel : PulsarModelState :=
  { model := none, toas := none, residuals := none, par_path := none, tim_path := none }

/-- PulsarModel.compute_prefit_residuals (pulsar.py lines 132-163): a
warning and empty payload when nothing is loaded; otherwise the
Residuals computation (external, outcome a parameter) either sets the
residuals field or is swallowed by the except block leaving the state
unchanged.  The boolean records whether a payload was produced. -/
def compute_prefit_residuals (st : PulsarModelState) (res : Except String ℕ) :
    PulsarModelState × Bool :=
  if st.is_loaded = false then (st, false)
  else
    match res with
    | Except.ok r => ({ st with residuals := some r }, true)
    | Except.error _ => (st, false)

/-- PulsarModel.load (pulsar.py lines 90-130).  The external PINT entry
point get_model_and_toas is a parameter (ok (model, toas) or error e);
on error the except block logs, clears the state and re-raises (the
second component carries the re-raised exception); on success the
model, TOA and path fields are set and the prefit residuals are
computed, whose own failures are swallowed. -/
def load (st : PulsarModelState) (par tim : String)
    (providerResult : Except String (ℕ × ℕ)) (residResult : Except String ℕ) :
    PulsarModelState × Option String :=
  match providerResult with
  | Except.error e => (st.clear, some e)
  | Except.ok mt =>
    let st1 : PulsarModelState :=
      { st with
        model := some mt.1
        toas := some mt.2
        par_path := some par
        tim_path := some tim }
    ((compute_prefit_residuals st1 residResult).1, none)

/-- ProjectController.open_project (project.py lines 32-62): closes any
existing project, creates a fresh PulsarModel and loads into it; an
exception from load propagates to the caller. -/
def open_project (par tim : String) (providerResult : Except String (ℕ × ℕ))
    (residResult : Except String ℕ) : PulsarModelState × Option String :=
  load emptyPulsarModel par tim providerResult residResult

/-- MainWindow._maybe_enable_project (main_window.py lines 187-198): when
both file paths are present the project is opened through the
controller, and any exception is caught and reported with a modal
QMessageBox.critical dialog; the boolean records whether that dialog
was shown. -/
def maybe_enable_project (par_path tim_path : Option String)
    (providerResult : Except String (ℕ × ℕ)) (residResult : Except String ℕ) :
    Option PulsarModelState × Bool :=
  match par_path, tim_path with
  | some par, some tim =>
    let r := open_project par tim providerResult residResult
    match r.2 with
    | some _ => (some r.1, true)
    | none => (some r.1, false)
  | _, _ => (none, false)

/-! ### Shared unfolding lemmas for revert and fitBody -/

theorem revert_fitted_eq (delete_TOAs : Psr → List ℕ → List Bool → Psr × List Bool)
    (s : PlkState) (c : Snap)
    (hc : s.state_stack.getLast? = some c) (hf : s.psr.fitted = true) :
    revert delete_TOAs s =
      ({ s with
          psr := (delete_TOAs c.psr c.psr.deleted c.selected).1
          selected := (delete_TOAs c.psr c.psr.deleted c.selected).2
          jumped := updateAllJumped (delete_TOAs c.psr c.psr.deleted c.selected).1
          state_stack := s.state_stack.dropLast },
        StepOutcome.raised (PyExc.attributeError "colorModeWidget")) := by
  unfold revert
  rw [hc, hf]

theorem revert_unfitted_eq (delete_TOAs : Psr → List ℕ → List Bool → Psr × List Bool)
    (s : PlkState) (hf : s.psr.fitted = false) :
    revert delete_TOAs s = (s, StepOutcome.warned "No model to revert to") := by
  unfold revert
  rw [hf]
  cases s.state_stack.getLast? <;> rfl

theorem check_jump_invalid_all_jumped (psr : Psr) (selected jumped : List Bool)
    (hcomp : "PhaseJump" ∈ psr.prefit_model.components)
    (hjumped : (boolIndex (updateAllJumped psr) (check_jump_sel selected)).all
      (fun b => b) = true) :
    check_jump_invalid psr selected jumped = (some true, updateAllJumped psr) := by
  unfold check_jump_invalid
  rw [if_neg (not_not_intro hcomp), if_pos hjumped]

/-! ### Concrete states used by counterexamples and witnesses -/

/-- A pulsar whose model holds a PhaseJump component and one active
parameter JUMP1 whose jump flag covers all three TOAs; not fitted. -/
def psrAllJumped : Psr where
  prefit_model :=
    { params := [{ name := "JUMP1", frozen := false, value := 0 }]
      components := ["PhaseJump"] }
  fitted := false
  deleted := []
  all_toas := { flagsJump := [some "1", some "1", some "1"] }

/-- Widget state over psrAllJumped with nothing selected, so the
effective fit selection is every TOA and every TOA is jumped. -/
def allJumpedState : PlkState where
  psr := psrAllJumped
  selected := [false, false, false]
  jumped := [false, false, false]
  state_stack := [{ psr := psrAllJumped, selected := [false, false, false] }]
  base_state := { psr := psrAllJumped, selected := [false, false, false] }
  current_state := none

/-- A plain fitted pulsar with two TOAs and no jumps. -/
def psrFitted : Psr where
  prefit_model := { params := [], components := [] }
  fitted := true
  deleted := []
  all_toas := { flagsJump := [none, none] }

/-- The same pulsar before fitting. -/
def psrUnfitted : Psr where
  prefit_model := { params := [], components := [] }
  fitted := false
  deleted := []
  all_toas := { flagsJump := [none, none] }

/-- Widget state right after a first successful provider fit: the pulsar
is fitted and the stack holds only the base entry. -/
def revertCexState : PlkState where
  psr := psrFitted
  selected := [true, false]
  jumped := [false, false]
  state_stack := [{ psr := psrUnfitted, selected := [false, false] }]
  base_state := { psr := psrUnfitted, selected := [false, false] }
  current_state := none

/-- A provider delete_TOAs that deletes nothing: re-deleting already
absent indices returns the pulsar and the mask unchanged. -/
def idDelete : Psr → List ℕ → List Bool → Psr × List Bool := fun p _ sel => (p, sel)

/-- An unfitted widget state used to exercise the push. -/
def pushWitnessState : PlkState where
  psr := psrUnfitted
  selected := [true, false]
  jumped := [false, false]
  state_stack := [{ psr := psrUnfitted, selected := [false, false] }]
  base_state := { psr := psrUnfitted, selected := [false, false] }
  current_state := none

/-! ### Claims C3, C4, C5, C7 -/

/-- C3 (counterexample).  At revertCexState the pulsar is fitted and the
stack holds only the base entry; revert is not a no-op there: it pops
the base snapshot and leaves the stack empty, because the re-seeding of
the stack at lines 1209-1211 sits after the attribute lookup
self.colorModeWidget, which raises AttributeError (the attribute is
never created).  This refutes both the claimed no-op for a stack that
holds only the base entry and the claimed invariant that the stack
never becomes empty with the base at its bottom. -/
theorem revert_base_pop_cex :
    revertCexState.state_stack = [revertCexState.base_state] ∧
    (revert idDelete revertCexState).1.state_stack = [] ∧
    (revert idDelete revertCexState).1 ≠ revertCexState ∧
    (revert idDelete revertCexState).2 =
      StepOutcome.raised (PyExc.attributeError "colorModeWidget") := by
  refine ⟨rfl, rfl, ?_, rfl⟩
  decide

/-- C3 (amended).  Revert on an unfitted pulsar is a no-op apart from the
logged warning, whatever the stack holds.  On a fitted pulsar revert
always pops the top snapshot -- the base entry included -- restores the
popped psr and selection through the provider delete_TOAs call, and
raises AttributeError from the uninitialised colorModeWidget before an
emptied stack would be re-seeded with the base entry, so the stack can
be left empty. -/
theorem revert_amended_spec (delete_TOAs : Psr → List ℕ → List Bool → Psr × List Bool)
    (s : PlkState) :
    (s.psr.fitted = false →
      revert delete_TOAs s = (s, StepOutcome.warned "No model to revert to")) ∧
    (∀ c, s.state_stack.getLast? = some c → s.psr.fitted = true →
      (revert delete_TOAs s).1.state_stack = s.state_stack.dropLast ∧
      (revert delete_TOAs s).1.psr = (delete_TOAs c.psr c.psr.deleted c.selected).1 ∧
      (revert delete_TOAs s).1.selected = (delete_TOAs c.psr c.psr.deleted c.selected).2 ∧
      (revert delete_TOAs s).2 =
        StepOutcome.raised (PyExc.attributeError "colorModeWidget")) := by
  constructor
  · intro hf
    exact revert_unfitted_eq delete_TOAs s hf
  · intro c hc hf
    rw [revert_fitted_eq delete_TOAs s c hc hf]
    exact ⟨rfl, rfl, rfl, rfl⟩

/-- C3 (witness).  The unfitted no-op at a concrete state, and the
restored selection at the concrete fitted state. -/
theorem revert_amended_spec_witness :
    revert idDelete pushWitnessState =
      (pushWitnessState, StepOutcome.warned "No model to revert to") ∧
    (revert idDelete revertCexState).1.selected = [false, false] := by
  constructor
  · exact (revert_amended_spec idDelete pushWitnessState).1 rfl
  · have h := (revert_amended_spec idDelete revertCexState).2
      { psr := psrUnfitted, selected := [false, false] } rfl rfl
    rw [h.2.2.1]
    rfl

/-- C4.  Round trip of the history stack: the snapshot pushed by fit
(deep copies of psr and of the selection mask, lines 1110-1112) is
restored exactly by a subsequent revert, whatever the provider fit and
later interaction did to the live psr, selection and jumped mask in
between -- psr (hence every model parameter value) and selection mask
come back identical -- provided the provider delete_TOAs is a no-op
when re-applied to the snapshot's own already-deleted indices (spec
section 8: re-deleting a now absent index is a no-op). -/
theorem push_pop_roundtrip (delete_TOAs : Psr → List ℕ → List Bool → Psr × List Bool)
    (s : PlkState) (psr2 : Psr) (sel2 jumped2 : List Bool)
    (hfit2 : psr2.fitted = true)
    (hdel : delete_TOAs s.psr s.psr.deleted s.selected = (s.psr, s.selected)) :
    (revert delete_TOAs
      { fitPush s with psr := psr2, selected := sel2, jumped := jumped2 }).1.psr = s.psr ∧
    (revert delete_TOAs
      { fitPush s with psr := psr2, selected := sel2, jumped := jumped2 }).1.selected =
      s.selected := by
  have hlast :
      ({ fitPush s with psr := psr2, selected := sel2, jumped := jumped2 } :
        PlkState).state_stack.getLast? =
        some { psr := s.psr, selected := s.selected } := by
    simp [fitPush]
  have hf :
      ({ fitPush s with psr := psr2, selected := sel2, jumped := jumped2 } :
        PlkState).psr.fitted = true := hfit2
  rw [revert_fitted_eq delete_TOAs _ _ hlast hf]
  simp [hdel]

/-- C4 (witness).  The round trip at a concrete state: push on
pushWitnessState, mutate psr to the fitted pulsar and the masks, revert
with the trivial delete_TOAs; the original psr and selection mask come
back. -/
theorem push_pop_roundtrip_witness :
    (revert idDelete
      { fitPush pushWitnessState with
        psr := psrFitted, selected := [false, false], jumped := [true, true] }).1.psr =
      pushWitnessState.psr ∧
    (revert idDelete
      { fitPush pushWitnessState with
        psr := psrFitted, selected := [false, false], jumped := [true, true] }).1.selected =
      pushWitnessState.selected :=
  push_pop_roundtrip idDelete pushWitnessState psrFitted [false, false] [true, true] rfl rfl

/-- C5 (counterexample).  At allJumpedState every TOA in the effective
fit selection is jumped and the model has a PhaseJump component (second
conjunct), yet attempting the fit neither logs the all-jumped warning
nor returns cleanly without fitting: fit raises NameError from the
misspelt NotIplementedError before the jump guard can run.  (The state
is indeed left unmutated, but for the unintended reason.) -/
theorem fit_all_jumped_cex :
    fit allJumpedState =
      (allJumpedState, StepOutcome.raised (PyExc.nameError "NotIplementedError")) ∧
    pyTruthy (check_jump_invalid allJumpedState.psr allJumpedState.selected
      allJumpedState.jumped).1 = true := by
  refine ⟨rfl, ?_⟩
  decide

/-- C5 (amended).  In the statements of fit that follow the unconditional
raise (fitBody), the all-jumped guard does abort before any fitting
work when the model has a PhaseJump component and every TOA of the
effective selection is jumped: check_jump_invalid logs its warning and
fit returns None with the selection mask, the history stack and the
provider state unchanged (only the derived jumped mask is recomputed);
fit as actually written, however, raises NameError immediately for
every input (see the counterexample), likewise mutating nothing but
logging no warning. -/
theorem fitBody_all_jumped_aborts (s : PlkState)
    (hcomp : "PhaseJump" ∈ s.psr.prefit_model.components)
    (hjumped : (boolIndex (updateAllJumped s.psr) (check_jump_sel s.selected)).all
      (fun b => b) = true) :
    fitBody s = ({ s with jumped := updateAllJumped s.psr },
      StepOutcome.warned "TOAs being fit must not all be jumped") ∧
    (fitBody s).1.selected = s.selected ∧
    (fitBody s).1.state_stack = s.state_stack ∧
    (fitBody s).1.psr = s.psr := by
  have hchk := check_jump_invalid_all_jumped s.psr s.selected s.jumped hcomp hjumped
  have h1 : fitBody s = ({ s with jumped := updateAllJumped s.psr },
      StepOutcome.warned "TOAs being fit must not all be jumped") := by
    unfold fitBody
    rw [hchk]
    rfl
  refine ⟨h1, ?_, ?_, ?_⟩ <;> rw [h1]

/-- C5 (witness).  The abort at the concrete all-jumped state. -/
theorem fitBody_all_jumped_aborts_witness :
    fitBody allJumpedState = ({ allJumpedState with jumped := [true, true, true] },
      StepOutcome.warned "TOAs being fit must not all be jumped") := by
  have h := (fitBody_all_jumped_aborts allJumpedState (by decide) (by decide)).1
  have hj : updateAllJumped allJumpedState.psr = [true, true, true] := by decide
  rw [h, hj]

/-- C7 (code_bug evaluation).  In the pintk-derived widget variant,
fit() raises for every input before touching any state -- but the
exception is NameError, not NotImplementedError: the raise statement
spells the undefined name NotIplementedError (missing the first m), and
Python raises NameError upon evaluating an undefined name. -/
theorem fit_raises_nameError (s : PlkState) :
    fit s = (s, StepOutcome.raised (PyExc.nameError "NotIplementedError")) ∧
    StepOutcome.raised (PyExc.nameError "NotIplementedError") ≠
      StepOutcome.raised PyExc.notImplementedError := by
  refine ⟨rfl, ?_⟩
  decide

/-! ### Claims C6, C8, C10 -/

/-- C6.  When no TOA is selected (the mask counts no true entry), the
effective masks of print_info, print_chi2 and check_jump_invalid are
each the complement of the all-false mask, i.e. the all-true mask over
every TOA. -/
theorem empty_selection_selects_all (selected : List Bool)
    (h : selected.count true = 0) :
    print_info_selected selected = List.replicate selected.length true ∧
    print_chi2_selected selected = List.replicate selected.length true ∧
    check_jump_sel selected = List.replicate selected.length true := by
  have hmap := map_not_of_count_eq_zero selected h
  refine ⟨?_, ?_, ?_⟩
  · unfold print_info_selected
    rw [if_neg (by rw [h]; exact lt_irrefl 0), hmap]
  · unfold print_chi2_selected
    rw [if_neg (by rw [h]; exact lt_irrefl 0), hmap]
  · unfold check_jump_sel
    rw [if_pos h, hmap]

/-- C6 (witness).  The three all-false masks of length three map to the
all-true mask. -/
theorem empty_selection_selects_all_witness :
    print_info_selected [false, false, false] = [true, true, true] ∧
    print_chi2_selected [false, false, false] = [true, true, true] ∧
    check_jump_sel [false, false, false] = [true, true, true] := by
  have h := empty_selection_selects_all [false, false, false] (by decide)
  simpa using h

/-- C8.  Toggling the selection at a valid index twice in succession is
the identity on the mask, and a single toggle leaves every other entry
unchanged. -/
theorem toggle_involution (sel : List Bool) (i : ℕ) (h : i < sel.length) :
    toggleSelected (toggleSelected sel i) i = sel ∧
    ∀ j, j ≠ i → (toggleSelected sel i).getD j false = sel.getD j false := by
  constructor
  · show (sel.set i (!(sel.getD i false))).set i
      (!((sel.set i (!(sel.getD i false))).getD i false)) = sel
    rw [set_getD_eq sel i (!(sel.getD i false)) false h, Bool.not_not, List.set_set]
    exact set_getD_self sel i false h
  · intro j hj
    exact set_getD_ne sel i j (!(sel.getD i false)) false (fun hij => hj hij.symm)

/-- C8 (witness).  The double toggle at index 0 of a two-entry mask, and
the unchanged entry at index 1. -/
theorem toggle_involution_witness :
    toggleSelected (toggleSelected [false, true] 0) 0 = [false, true] ∧
    (toggleSelected [false, true] 0).getD 1 false = [false, true].getD 1 false :=
  ⟨(toggle_involution [false, true] 0 (by decide)).1,
   (toggle_involution [false, true] 0 (by decide)).2 1 (by decide)⟩

/-- C10.  A drag rectangle only ever adds to the selection: the new mask
is the pointwise OR of the old mask with the strict-inequality interior
of the rectangle, every previously selected index stays selected, and a
point lying exactly on an edge of the rectangle is not added by the
drag (its mask entry is unchanged). -/
theorem clickAndDrag_correct (sel : List Bool) (xs ys : List ℚ) (px ex py ey : ℚ)
    (hx : xs.length = sel.length) (hy : ys.length = sel.length) :
    (clickAndDrag sel xs ys px ex py ey).length = sel.length ∧
    (∀ i, i < sel.length →
      (clickAndDrag sel xs ys px ex py ey).getD i false =
        (sel.getD i false ||
          (decide (xs.getD i 0 > rectLo px ex) && decide (xs.getD i 0 < rectHi px ex) &&
            decide (ys.getD i 0 > rectLo py ey) && decide (ys.getD i 0 < rectHi py ey)))) ∧
    (∀ i, sel.getD i false = true →
      (clickAndDrag sel xs ys px ex py ey).getD i false = true) ∧
    (∀ i, i < sel.length →
      (xs.getD i 0 = rectLo px ex ∨ xs.getD i 0 = rectHi px ex ∨
        ys.getD i 0 = rectLo py ey ∨ ys.getD i 0 = rectHi py ey) →
      (clickAndDrag sel xs ys px ex py ey).getD i false = sel.getD i false) := by
  have hinlen : (List.zipWith
      (fun xv yv => decide (xv > rectLo px ex) && decide (xv < rectHi px ex) &&
        decide (yv > rectLo py ey) && decide (yv < rectHi py ey)) xs ys).length =
      sel.length := by
    simp [List.length_zipWith, hx, hy]
  have hlen : (clickAndDrag sel xs ys px ex py ey).length = sel.length := by
    unfold clickAndDrag
    simp [List.length_zipWith, hinlen]
  have hpt : ∀ i, i < sel.length →
      (clickAndDrag sel xs ys px ex py ey).getD i false =
        (sel.getD i false ||
          (decide (xs.getD i 0 > rectLo px ex) && decide (xs.getD i 0 < rectHi px ex) &&
            decide (ys.getD i 0 > rectLo py ey) && decide (ys.getD i 0 < rectHi py ey))) := by
    intro i hi
    unfold clickAndDrag
    rw [zipWith_getD (fun a b => a || b) sel _ i false false false hi
      (by rw [hinlen]; exact hi)]
    rw [zipWith_getD _ xs ys i 0 0 false (by rw [hx]; exact hi) (by rw [hy]; exact hi)]
  refine ⟨hlen, hpt, ?_, ?_⟩
  · intro i hisel
    by_cases hi : i < sel.length
    · rw [hpt i hi, hisel]
      simp
    · push_neg at hi
      rw [getD_of_le sel i false hi] at hisel
      exact absurd hisel (by simp)
  · intro i hi hedge
    rw [hpt i hi]
    rcases hedge with he | he | he | he <;> rw [he] <;> simp [lt_irrefl]

/-- C10 (witness).  On three points (0,0), (1,1), (2,2) with the mask
selecting only index 0 and a drag from (1/2, 1/2) to (2, 3): the
previously selected index 0 stays selected, and index 2, whose x-value
lies exactly on the right edge of the rectangle, keeps its unselected
mask entry. -/
theorem clickAndDrag_correct_witness :
    (clickAndDrag [true, false, false] [0, 1, 2] [0, 1, 2] (1/2) 2 (1/2) 3).getD 0 false
      = true ∧
    (clickAndDrag [true, false, false] [0, 1, 2] [0, 1, 2] (1/2) 2 (1/2) 3).getD 2 false
      = [true, false, false].getD 2 false := by
  constructor
  · exact (clickAndDrag_correct [true, false, false] [0, 1, 2] [0, 1, 2] (1/2) 2 (1/2) 3
      (by decide) (by decide)).2.2.1 0 (by decide)
  · refine (clickAndDrag_correct [true, false, false] [0, 1, 2] [0, 1, 2] (1/2) 2 (1/2) 3
      (by decide) (by decide)).2.2.2 2 (by decide) ?_
    right
    left
    norm_num [rectHi]

/-! ### Claim C9 -/

/-- C9.  When loading a par/tim pair fails in the provider
(get_model_and_toas raises), PulsarModel.load clears every field and
re-raises: model, toas, residuals, par_path and tim_path are all none
and is_loaded is false afterwards, whatever state was loaded before;
the propagated exception reaches the main-window handler, which reports
it with the modal error dialog. -/
theorem load_failure_clears_state (st : PulsarModelState) (par tim e : String)
    (residResult : Except String ℕ) :
    (load st par tim (Except.error e) residResult).1 = emptyPulsarModel ∧
    (load st par tim (Except.error e) residResult).1.is_loaded = false ∧
    (load st par tim (Except.error e) residResult).2 = some e ∧
    (maybe_enable_project (some par) (some tim) (Except.error e) residResult).2 = true :=
  ⟨rfl, rfl, rfl, rfl⟩

end Pylk
